import Mathlib

/-!
Verification of the Clippy backend (FastAPI + Qdrant + local LLM) against its
natural-language specification.

The repository contains two generations of the same server:
  * `backend/` (app.py, models.py, ai.py, cognee_worker.py) — the "lean" rewrite;
  * `clippy-backend/` (app.py, shared/llm.py) — the original, fuller server.
Definitions below are shallow embeddings of the pure request-handling logic of
both, namespaced `Backend` and `Clippy`.  External collaborators (the Qdrant
client, llama-cpp models, HTTP posts, clocks, uuid generation) are passed in as
explicit parameters or outcome values; `Except String` models Python exception
flow (`.error e` = an exception whose `str()` is `e`).

Python's `re` module is modelled by a small backtracking engine (`reRun`) over
a regex AST (`RE`) that covers exactly the constructs the source patterns use:
character classes with ranges and negation, concatenation, alternation
(preferring the left branch, as Python does), greedy bounded/unbounded
repetition with backtracking, word boundaries, start-of-string anchor and a
fixed-width lookbehind.  ASCII semantics are used for the word/space classes,
which agrees with Python on the ASCII inputs considered here.
-/

/-- Character-class atom: a single character or an inclusive range. -/
inductive CC where
  | single : Char → CC
  | crange : Char → Char → CC
deriving DecidableEq

/-- Regex AST covering the constructs used by the source patterns. -/
inductive RE where
  /-- matches the empty string -/
  | eps : RE
  /-- character class; `neg = true` means negated class -/
  | cls : Bool → List CC → RE
  /-- concatenation -/
  | seq : RE → RE → RE
  /-- alternation, left branch preferred (Python semantics) -/
  | alt : RE → RE → RE
  /-- greedy repetition with lower bound and optional upper bound -/
  | rep : RE → Nat → Option Nat → RE
  /-- word boundary -/
  | wordB : RE
  /-- start of string -/
  | bol : RE
  /-- fixed-width lookbehind: each entry is one preceding character class -/
  | lbehind : List (Bool × List CC) → RE
deriving DecidableEq

def ccMatch (c : Char) : CC → Bool
  | .single d => c == d
  | .crange lo hi => lo.toNat ≤ c.toNat && c.toNat ≤ hi.toNat

/-- Does character `c` match the (possibly negated) class? -/
def clsMatch (neg : Bool) (ccs : List CC) (c : Char) : Bool :=
  (ccs.any (ccMatch c)) != neg

/-- ASCII word characters, Python regex `\w`. -/
def wordCCs : List CC :=
  [.crange 'a' 'z', .crange 'A' 'Z', .crange '0' '9', .single '_']

def isWordChar (c : Char) : Bool := clsMatch false wordCCs c

/-- ASCII whitespace, Python regex `\s`. -/
def spaceCCs : List CC :=
  [.single ' ', .single '\t', .single '\n', .single '\r',
   .single (Char.ofNat 11), .single (Char.ofNat 12)]

/-- Python `\b`: exactly one side of position `i` is a word character. -/
def atBoundary (s : List Char) (i : Nat) : Bool :=
  let pre := if i = 0 then false else ((s.get? (i - 1)).map isWordChar).getD false
  let cur := ((s.get? i).map isWordChar).getD false
  pre != cur

/-- Check a fixed-width lookbehind: the `pats.length` characters before `i`
    must each match the corresponding class. -/
def lbCheck (s : List Char) (i : Nat) (pats : List (Bool × List CC)) : Bool :=
  let n := pats.length
  if i < n then false
  else (pats.enum).all (fun kp =>
    match s.get? (i - n + kp.1) with
    | some c => clsMatch kp.2.1 kp.2.2 c
    | none => false)

/-- Backtracking matcher in continuation-passing style.  `k` receives the end
    position of a candidate match of `re` starting at `i`; candidates are tried
    in Python preference order (greedy repetition longest-first, alternation
    left-first).  `fuel` bounds call depth. -/
def reRun (fuel : Nat) (re : RE) (s : List Char) (i : Nat)
    (k : Nat → Option Nat) : Option Nat :=
  match fuel with
  | 0 => none
  | fuel + 1 =>
    match re with
    | .eps => k i
    | .cls neg ccs =>
      match s.get? i with
      | some c => if clsMatch neg ccs c then k (i + 1) else none
      | none => none
    | .seq a b => reRun fuel a s i (fun j => reRun fuel b s j k)
    | .alt a b =>
      match reRun fuel a s i k with
      | some r => some r
      | none => reRun fuel b s i k
    | .rep a lo hi =>
      match lo with
      | Nat.succ l =>
        reRun fuel a s i (fun j => reRun fuel (.rep a l (hi.map (fun m => m - 1))) s j k)
      | 0 =>
        match hi with
        | some 0 => k i
        | _ =>
          match reRun fuel a s i
              (fun j => if j = i then none
                        else reRun fuel (.rep a 0 (hi.map (fun m => m - 1))) s j k) with
          | some r => some r
          | none => k i
    | .wordB => if atBoundary s i then k i else none
    | .bol => if i = 0 then k i else none
    | .lbehind pats => if lbCheck s i pats then k i else none

/-- Leftmost match attempt at a fixed start position `i`; returns the end
    position of the preferred match, if any. -/
def reMatchAt (re : RE) (s : List Char) (i : Nat) : Option Nat :=
  reRun (4 * s.length + 400) re s i some

/-- Python `re.finditer` scan: try each start position left to right; on a
    match, continue after it.  (The source patterns cannot match the empty
    string; a zero-width match just advances the scan.) -/
def reFindGo (fuel : Nat) (re : RE) (s : List Char) (i : Nat) : List (List Char) :=
  match fuel with
  | 0 => []
  | fuel + 1 =>
    if i > s.length then []
    else
      match reMatchAt re s i with
      | some j =>
        if i < j then ((s.drop i).take (j - i)) :: reFindGo fuel re s j
        else reFindGo fuel re s (i + 1)
      | none => reFindGo fuel re s (i + 1)

/-- All matches of `re` in `text`, as strings (the `m.group()` values). -/
def reFindAll (re : RE) (text : String) : List String :=
  (reFindGo (text.length + 1) re text.data 0).map (fun l => String.mk l)

/-- Python `re.sub` with a literal replacement: scan left to right, replacing
    each non-overlapping match. -/
def pySubGo (fuel : Nat) (re : RE) (repl s : List Char) (i : Nat)
    (acc : List Char) : List Char :=
  match fuel with
  | 0 => acc ++ s.drop i
  | fuel + 1 =>
    match s.get? i with
    | some c =>
      match reMatchAt re s i with
      | some j =>
        if i < j then pySubGo fuel re repl s j (acc ++ repl)
        else pySubGo fuel re repl s (i + 1) (acc ++ repl ++ [c])
      | none => pySubGo fuel re repl s (i + 1) (acc ++ [c])
    | none =>
      match reMatchAt re s i with
      | some _ => acc ++ repl
      | none => acc

def pySub (re : RE) (repl : String) (s : List Char) : List Char :=
  pySubGo (s.length + 1) re repl.data s 0 []

/-- Single-character regex. -/
def chrR (c : Char) : RE := .cls false [.single c]

/-- Single character under IGNORECASE: matches either case. -/
def chrRI (c : Char) : RE := .cls false [.single c.toLower, .single c.toUpper]

/-- Literal string regex. -/
def litR (s : String) : RE := s.data.foldr (fun c r => .seq (chrR c) r) .eps

/-- Literal string regex under IGNORECASE. -/
def litRI (s : String) : RE := s.data.foldr (fun c r => .seq (chrRI c) r) .eps

/-- Greedy `+`. -/
def plusR (r : RE) : RE := .rep r 1 none

/-- Greedy `*`. -/
def starR (r : RE) : RE := .rep r 0 none

/-- Greedy `?`. -/
def optR (r : RE) : RE := .rep r 0 (some 1)

/-- Python `str.strip()`: remove ASCII whitespace from both ends. -/
def isPySpace (c : Char) : Bool := (spaceCCs.any (ccMatch c))

def pyStripL (l : List Char) : List Char :=
  ((l.dropWhile isPySpace).reverse.dropWhile isPySpace).reverse

def pyStripS (s : String) : String := String.mk (pyStripL s.data)

/-- Python `s[:n]` on a string: the first `n` characters. -/
def pyTake (n : Nat) (s : String) : String := String.mk (s.data.take n)

/-!
Entity patterns.  Each `RE` below transliterates one compiled pattern from
`ENTITY_PATTERNS` in backend/app.py or `_ENTITY_PATTERNS` in
clippy-backend/app.py.
-/

def digitCC : CC := .crange '0' '9'

def reD : RE := .cls false [digitCC]

/-- Characters excluded by the url pattern's negated class: whitespace and
    the literal characters < > " curly-braces | backslash caret backtick [ ] . -/
def urlExcl : List CC :=
  spaceCCs ++
  [.single '<', .single '>', .single '"', .single (Char.ofNat 123),
   .single (Char.ofNat 125), .single '|', .single '\\', .single '^',
   .single (Char.ofNat 96), .single '[', .single ']']

/-- Pattern url (IGNORECASE), identical in both files. -/
def urlRe : RE :=
  .seq (litRI "http") (.seq (optR (chrRI 's'))
    (.seq (litRI "://") (plusR (.cls true urlExcl))))

/-- Pattern email, identical in both files. -/
def emailRe : RE :=
  .seq (plusR (.cls false [.crange 'a' 'z', .crange 'A' 'Z', .crange '0' '9',
                           .single '.', .single '_', .single '%', .single '+', .single '-']))
    (.seq (chrR '@')
      (.seq (plusR (.cls false [.crange 'a' 'z', .crange 'A' 'Z', .crange '0' '9',
                                .single '.', .single '-']))
        (.seq (chrR '.')
          (.rep (.cls false [.crange 'a' 'z', .crange 'A' 'Z']) 2 none))))

/-- Phone pattern skeleton; the separator class differs between the two files. -/
def phoneReWith (sep : List CC) : RE :=
  .seq (optR (.seq (chrR '+') (.seq (.rep reD 1 (some 3)) (optR (.cls false sep)))))
    (.seq (optR (chrR '('))
      (.seq (.rep reD 3 (some 3))
        (.seq (optR (chrR ')'))
          (.seq (optR (.cls false sep))
            (.seq (.rep reD 3 (some 3))
              (.seq (optR (.cls false sep))
                (.rep reD 4 (some 4))))))))

/-- backend/app.py uses a raw-string class of dash, dot, a literal backslash
    and the letter s (the source writes a double backslash inside a raw
    string, so backslash-s is not whitespace there). -/
def backendPhoneSep : List CC :=
  [.single '-', .single '.', .single '\\', .single 's']

/-- clippy-backend/app.py uses dash, dot and whitespace. -/
def clippyPhoneSep : List CC :=
  [.single '-', .single '.'] ++ spaceCCs

def dashSlash : RE := .cls false [.single '-', .single '/']

/-- Pattern date, identical in both files: four-digit-year form first, then
    the day-first form, both word-bounded. -/
def dateRe : RE :=
  .alt
    (.seq .wordB (.seq (.rep reD 4 (some 4)) (.seq dashSlash
      (.seq (.rep reD 1 (some 2)) (.seq dashSlash
        (.seq (.rep reD 1 (some 2)) .wordB))))))
    (.seq .wordB (.seq (.rep reD 1 (some 2)) (.seq dashSlash
      (.seq (.rep reD 1 (some 2)) (.seq dashSlash
        (.seq (.rep reD 2 (some 4)) .wordB))))))

/-- Dollar-amount alternative, the whole money pattern in backend/app.py. -/
def moneyDollarRe : RE :=
  .seq (chrR '$')
    (.seq (plusR (.cls false [digitCC, .single ',']))
      (optR (.seq (chrR '.') (.rep reD 2 (some 2)))))

/-- clippy-backend money pattern adds a currency-code alternative. -/
def moneyClippyRe : RE :=
  .alt moneyDollarRe
    (.seq .wordB
      (.seq (.alt (litRI "USD") (.alt (litRI "EUR") (litRI "GBP")))
        (.seq (starR (.cls false spaceCCs))
          (.seq (plusR (.cls false [digitCC, .single ',']))
            (optR (.seq (chrR '.') (.rep reD 2 (some 2))))))))

/-- clippy-backend ip_address pattern. -/
def ipRe : RE :=
  .seq .wordB (.seq (.rep reD 1 (some 3)) (.seq (chrR '.')
    (.seq (.rep reD 1 (some 3)) (.seq (chrR '.')
      (.seq (.rep reD 1 (some 3)) (.seq (chrR '.')
        (.seq (.rep reD 1 (some 3)) .wordB)))))))

def wDotDash : List CC := wordCCs ++ [.single '.', .single '-']

/-- Pattern file_path, identical in both files: a POSIX form of at least two
    slash-separated segments, or a Windows drive form. -/
def filePathRe : RE :=
  .alt
    (.rep (.seq (chrR '/') (plusR (.cls false wDotDash))) 2 none)
    (.seq (.cls false [.crange 'A' 'Z'])
      (.seq (chrR ':') (.seq (chrR '\\')
        (plusR (.seq (plusR (.cls false wDotDash)) (optR (chrR '\\')))))))

/-- clippy-backend code_keyword pattern (IGNORECASE). -/
def codeKeywordRe : RE :=
  .seq .wordB
    (.seq (.alt (litRI "function") (.alt (litRI "class") (.alt (litRI "def")
      (.alt (litRI "import") (.alt (litRI "export") (.alt (litRI "const")
        (.alt (litRI "let") (.alt (litRI "var") (.alt (litRI "struct")
          (.alt (litRI "enum") (litRI "protocol")))))))))))
      (.seq (plusR (.cls false spaceCCs)) (plusR (.cls false wordCCs))))

/-- ENTITY_PATTERNS from backend/app.py, in source order. -/
def backendEntityRes : List (String × RE) :=
  [("url", urlRe), ("email", emailRe), ("phone", phoneReWith backendPhoneSep),
   ("date", dateRe), ("money", moneyDollarRe), ("file_path", filePathRe)]

/-- _ENTITY_PATTERNS from clippy-backend/app.py, in source order. -/
def clippyEntityRes : List (String × RE) :=
  [("url", urlRe), ("email", emailRe), ("phone", phoneReWith clippyPhoneSep),
   ("ip_address", ipRe), ("money", moneyClippyRe), ("date", dateRe),
   ("file_path", filePathRe), ("code_keyword", codeKeywordRe)]

/-- Turn a pattern table into finditer-style matcher functions. -/
def toMatchers (pats : List (String × RE)) : List (String × (String → List String)) :=
  pats.map (fun p => (p.1, reFindAll p.2))

/-- extract_entities, the same function in both files: for each pattern in
    order, for each match left to right, strip the matched text and append the
    (type, value) pair unless already seen.  An output pair models the dict
    with keys type and value. -/
def extract_entities (pats : List (String × (String → List String)))
    (text : String) : List (String × String) :=
  (pats.foldl
    (fun acc p =>
      (p.2 text).foldl
        (fun acc2 m =>
          let v := pyStripS m
          if (p.1, v) ∈ acc2.1 then acc2
          else ((p.1, v) :: acc2.1, acc2.2 ++ [(p.1, v)]))
        acc)
    (([] : List (String × String)), ([] : List (String × String)))).2

/-- The ingestion scenario text from the specification. -/
def sampleText : String :=
  "Contact me at alice@example.com or https://example.com, paid $42.50 on 2024-01-05"

/-!
Deduplication spec.  `scanPairs` and `dedupFirst` are written from the spec's
wording ("pattern list order, then left-to-right scan order within each
pattern"; "first match wins position in output order") to compare against the
source's seen-set loop.
-/

/-- Modelled from the spec: the flattened scan order — pattern-list order,
    then left-to-right match order within each pattern — with values
    stripped. -/
def scanPairs (pats : List (String × (String → List String))) (text : String) :
    List (String × String) :=
  (pats.map (fun p => (p.2 text).map (fun m => (p.1, pyStripS m)))).flatten

/-- Modelled from the spec: keep each element at its first occurrence,
    dropping later duplicates; elements of `seen` are dropped. -/
def dedupFirstAux {α : Type} [DecidableEq α] (seen : List α) : List α → List α
  | [] => []
  | x :: xs =>
    if x ∈ seen then dedupFirstAux seen xs
    else x :: dedupFirstAux (x :: seen) xs

def dedupFirst {α : Type} [DecidableEq α] (l : List α) : List α :=
  dedupFirstAux [] l

/-- The seen-set/output fold of extract_entities computes dedupFirstAux. -/
theorem foldl_seen_out_eq_dedupFirstAux
    (l : List (String × String)) : ∀ (seen out : List (String × String)),
    (l.foldl (fun acc x => if x ∈ acc.1 then acc else (x :: acc.1, acc.2 ++ [x]))
        (seen, out)).2 = out ++ dedupFirstAux seen l := by
  induction l with
  | nil => intro seen out; simp [dedupFirstAux]
  | cons x xs ih =>
    intro seen out
    by_cases h : x ∈ seen
    · simp only [List.foldl_cons, h, if_pos]
      simpa [dedupFirstAux, h] using ih seen out
    · simp only [List.foldl_cons, h, if_neg, not_false_iff]
      rw [dedupFirstAux]
      simp only [h, if_neg, not_false_iff]
      simpa using ih (x :: seen) (out ++ [x])

/-- dedupFirstAux produces no duplicates and nothing from `seen`. -/
theorem dedupFirstAux_nodup {α : Type} [DecidableEq α] (l : List α) :
    ∀ seen : List α,
    (dedupFirstAux seen l).Nodup ∧ ∀ x ∈ dedupFirstAux seen l, x ∉ seen := by
  induction l with
  | nil => intro seen; simp [dedupFirstAux]
  | cons x xs ih =>
    intro seen
    by_cases h : x ∈ seen
    · rw [dedupFirstAux]; simp only [h, if_pos]; exact ih seen
    · rw [dedupFirstAux]; simp only [h, if_neg, not_false_iff]
      obtain ⟨hnd, hmem⟩ := ih (x :: seen)
      refine ⟨List.nodup_cons.mpr ⟨fun hx => ?_, hnd⟩, ?_⟩
      · exact (hmem x hx) (List.mem_cons_self x seen)
      · intro y hy
        rcases List.mem_cons.mp hy with rfl | hy'
        · exact h
        · intro hys
          exact (hmem y hy') (List.mem_cons_of_mem x hys)

/-- extract_entities is exactly first-occurrence dedup of the scan order. -/
theorem extract_entities_eq_dedupFirst
    (pats : List (String × (String → List String))) (text : String) :
    extract_entities pats text = dedupFirst (scanPairs pats text) := by
  have hinner : ∀ (p : String × (String → List String))
      (acc : List (String × String) × List (String × String)),
      (p.2 text).foldl
        (fun acc2 m =>
          let v := pyStripS m
          if (p.1, v) ∈ acc2.1 then acc2
          else ((p.1, v) :: acc2.1, acc2.2 ++ [(p.1, v)])) acc
      = ((p.2 text).map (fun m => (p.1, pyStripS m))).foldl
          (fun acc2 x => if x ∈ acc2.1 then acc2 else (x :: acc2.1, acc2.2 ++ [x]))
          acc := by
    intro p acc
    rw [List.foldl_map]
  unfold extract_entities scanPairs dedupFirst
  simp only [hinner]
  rw [← List.foldl_map
    (fun p : String × (String → List String) =>
      (p.2 text).map (fun m => (p.1, pyStripS m)))
    (fun acc l => l.foldl
      (fun acc2 x => if x ∈ acc2.1 then acc2 else (x :: acc2.1, acc2.2 ++ [x])) acc)]
  rw [← List.foldl_flatten]
  simpa using foldl_seen_out_eq_dedupFirstAux
    ((pats.map (fun p => (p.2 text).map (fun m => (p.1, pyStripS m)))).flatten) [] []

set_option maxRecDepth 8192

/-- C2: for every pattern table and input text, extract_entities returns a
    sequence with no duplicate (type, value) pairs, equal to the
    first-occurrence deduplication of the scan order (pattern-list order, then
    left-to-right within each pattern), and is deterministic (a pure function:
    re-running on the same input yields the same sequence). -/
theorem extract_entities_nodup_first_seen
    (pats : List (String × (String → List String))) (text : String) :
    (extract_entities pats text).Nodup ∧
    extract_entities pats text = dedupFirst (scanPairs pats text) ∧
    extract_entities pats text = extract_entities pats text := by
  refine ⟨?_, extract_entities_eq_dedupFirst pats text, rfl⟩
  rw [extract_entities_eq_dedupFirst]
  exact (dedupFirstAux_nodup (scanPairs pats text) []).1

/-- C3 counterexample: on the scenario text, neither server's extract_entities
    returns the list claimed by the spec (email first, url without the
    trailing comma, money before date): the url pattern's negated class admits
    the comma, so the url value is captured with a trailing comma, and the url
    pattern comes first in both pattern tables. -/
theorem extract_entities_sample_ne_claimed :
    extract_entities (toMatchers clippyEntityRes) sampleText ≠
      [("email", "alice@example.com"), ("url", "https://example.com"),
       ("money", "$42.50"), ("date", "2024-01-05")] ∧
    extract_entities (toMatchers backendEntityRes) sampleText ≠
      [("email", "alice@example.com"), ("url", "https://example.com"),
       ("money", "$42.50"), ("date", "2024-01-05")] := by
  constructor <;> decide

/-- C3 amended: on the scenario text both servers return exactly 4 entities
    with no duplicates; clippy-backend in the order url, email, money, date
    and backend in the order url, email, date, money (their pattern-table
    orders), with the url value keeping the trailing comma. -/
theorem extract_entities_sample_actual :
    extract_entities (toMatchers clippyEntityRes) sampleText =
      [("url", "https://example.com,"), ("email", "alice@example.com"),
       ("money", "$42.50"), ("date", "2024-01-05")] ∧
    extract_entities (toMatchers backendEntityRes) sampleText =
      [("url", "https://example.com,"), ("email", "alice@example.com"),
       ("date", "2024-01-05"), ("money", "$42.50")] ∧
    (extract_entities (toMatchers clippyEntityRes) sampleText).length = 4 ∧
    (extract_entities (toMatchers clippyEntityRes) sampleText).Nodup := by
  refine ⟨?_, ?_, ?_, ?_⟩ <;> decide

/-!
Perspective rewriting, from clippy-backend/app.py `_fix_perspective`.
-/

/-- Word-bounded literal phrase pattern. -/
def phraseRe (s : String) : RE := .seq .wordB (.seq (litR s) .wordB)

/-- The ordered replacement table of _fix_perspective, in source order
    (longer phrases first). -/
def perspectiveSubs : List (RE × String) :=
  [(phraseRe "I was", "You were"),
   (phraseRe "I am", "You are"),
   (phraseRe "I have", "You have"),
   (phraseRe "I had", "You had"),
   (phraseRe "I\x27m", "You\x27re"),
   (phraseRe "I\x27ve", "You\x27ve"),
   (phraseRe "I\x27d", "You\x27d"),
   (phraseRe "I\x27ll", "You\x27ll"),
   (phraseRe "I will", "You will"),
   (phraseRe "I can", "You can"),
   (phraseRe "I could", "You could"),
   (phraseRe "I would", "You would"),
   (phraseRe "I should", "You should"),
   (phraseRe "I need", "You need"),
   (phraseRe "I want", "You want"),
   (phraseRe "I did", "You did"),
   (phraseRe "I do", "You do"),
   (phraseRe "my", "your"),
   (phraseRe "My", "Your"),
   (phraseRe "mine", "yours"),
   (phraseRe "myself", "yourself")]

def sentencePunct : List CC := [.single '.', .single '!', .single '?']

/-- Standalone I after terminal punctuation and one whitespace character. -/
def sentenceIRe : RE :=
  .seq (.lbehind [(false, sentencePunct), (false, spaceCCs)])
    (.seq (chrR 'I') .wordB)

/-- Standalone I at the start of the string. -/
def startIRe : RE := .seq .bol (.seq (chrR 'I') .wordB)

/-- _fix_perspective from clippy-backend/app.py: apply each phrase
    substitution in order, then the sentence-initial and string-initial
    standalone-I substitutions. -/
def _fix_perspective (text : String) : String :=
  let t1 := perspectiveSubs.foldl (fun t pr => pySub pr.1 pr.2 t) text.data
  let t2 := pySub sentenceIRe "You" t1
  let t3 := pySub startIRe "You" t2
  String.mk t3

/-- Does the pattern match anywhere in `s` (at any start position)? -/
def reHasMatch (re : RE) (s : List Char) : Bool :=
  (List.range (s.length + 1)).any (fun i => (reMatchAt re s i).isSome)

/-- All patterns _fix_perspective substitutes, in order. -/
def perspectivePatterns : List RE :=
  perspectiveSubs.map (fun pr => pr.1) ++ [sentenceIRe, startIRe]

/-- Text already in second person: no first-person pattern of
    _fix_perspective matches anywhere in it. -/
def isSecondPerson (text : String) : Bool :=
  perspectivePatterns.all (fun re => !reHasMatch re text.data)

theorem reHasMatch_false {re : RE} {s : List Char} (h : reHasMatch re s = false) :
    ∀ j, j ≤ s.length → reMatchAt re s j = none := by
  intro j hj
  rw [reHasMatch, List.any_eq_false] at h
  have hm : j ∈ List.range (s.length + 1) := List.mem_range.mpr (Nat.lt_succ_of_le hj)
  cases ho : reMatchAt re s j with
  | none => rfl
  | some v =>
    exfalso
    have hv := h j hm
    rw [ho] at hv
    simp at hv

/-- A substitution whose pattern matches nowhere is the identity. -/
theorem pySubGo_no_match (re : RE) (repl s : List Char)
    (H : ∀ j, j ≤ s.length → reMatchAt re s j = none) :
    ∀ (fuel i : Nat) (acc : List Char), i ≤ s.length →
    pySubGo fuel re repl s i acc = acc ++ s.drop i := by
  intro fuel
  induction fuel with
  | zero => intro i acc _; rfl
  | succ fuel ih =>
    intro i acc hi
    rw [pySubGo]
    cases hg : s.get? i with
    | some c =>
      have hlt : i < s.length := by
        by_contra hge
        rw [List.get?_eq_none.mpr (Nat.le_of_not_lt hge)] at hg
        exact Option.noConfusion hg
      simp only [hg, H i hi]
      rw [ih (i + 1) (acc ++ [c]) hlt]
      have hd : s.drop i = c :: s.drop (i + 1) := by
        have hc : s[i] = c := by
          obtain ⟨h', hc⟩ := List.get?_eq_some.mp hg
          simpa using hc
        rw [List.drop_eq_getElem_cons hlt, hc]
      rw [hd]
      simp
    | none =>
      have hge : s.length ≤ i := List.get?_eq_none.mp hg
      have hieq : i = s.length := Nat.le_antisymm hi hge
      simp only [hg, H i hi]
      rw [hieq, List.drop_length, List.append_nil]

theorem pySub_no_match (re : RE) (repl : String) (s : List Char)
    (H : ∀ j, j ≤ s.length → reMatchAt re s j = none) :
    pySub re repl s = s := by
  rw [pySub, pySubGo_no_match re repl.data s H (s.length + 1) 0 [] (Nat.zero_le _)]
  simp

/-- A chain of substitutions none of whose patterns match is the identity. -/
theorem foldl_pySub_no_match (subs : List (RE × String)) (s : List Char)
    (H : ∀ pr ∈ subs, ∀ j, j ≤ s.length → reMatchAt pr.1 s j = none) :
    subs.foldl (fun t pr => pySub pr.1 pr.2 t) s = s := by
  induction subs with
  | nil => rfl
  | cons pr rest ih =>
    rw [List.foldl_cons,
      pySub_no_match pr.1 pr.2 s (H pr (List.mem_cons_self pr rest))]
    exact ih (fun q hq => H q (List.mem_cons_of_mem pr hq))

/-- On second-person text _fix_perspective changes nothing. -/
theorem fix_perspective_noop (t : String) (h : isSecondPerson t = true) :
    _fix_perspective t = t := by
  rw [isSecondPerson, List.all_eq_true] at h
  have hp : ∀ re ∈ perspectivePatterns, ∀ j, j ≤ t.data.length →
      reMatchAt re t.data j = none := by
    intro re hre
    exact reHasMatch_false (by simpa using h re hre)
  rw [_fix_perspective]
  rw [foldl_pySub_no_match perspectiveSubs t.data (fun pr hpr => hp pr.1
    (List.mem_append_left _ (List.mem_map_of_mem (fun q => q.1) hpr)))]
  rw [pySub_no_match sentenceIRe "You" t.data
    (hp sentenceIRe (by simp [perspectivePatterns]))]
  rw [pySub_no_match startIRe "You" t.data
    (hp startIRe (by simp [perspectivePatterns]))]

/-- C8: _fix_perspective is idempotent on text already in second person
    (no first-person pattern occurs in it): it leaves such text unchanged, so
    applying it to its own output changes nothing; and it never rewrites a
    first-person pattern inside a larger word: "India" is returned unchanged,
    not rewritten to "Yourdia". -/
theorem fix_perspective_idempotent (t : String) (h : isSecondPerson t = true) :
    _fix_perspective t = t ∧
    _fix_perspective (_fix_perspective t) = _fix_perspective t ∧
    _fix_perspective "India" = "India" := by
  have hid := fix_perspective_noop t h
  exact ⟨hid, by rw [hid]; exact hid, by decide⟩

/-- Witness for C8 at a concrete second-person string. -/
theorem fix_perspective_idempotent_witness :
    isSecondPerson "You are doing well. Your code works." = true ∧
    _fix_perspective (_fix_perspective "You are doing well. Your code works.") =
      _fix_perspective "You are doing well. Your code works." :=
  ⟨by decide,
   (fix_perspective_idempotent "You are doing well. Your code works." (by decide)).2.1⟩

/-!
Qdrant query selection, from the GET /discover endpoints.  The query vector is
produced by the external embedding model, so it is an abstract type parameter.
-/

/-- A Recommend exemplar: the source passes either a raw vector or a stored
    point id in the positive/negative lists. -/
inductive RecEx (V : Type) where
  | vec : V → RecEx V
  | pid : String → RecEx V
deriving DecidableEq

/-- RecommendStrategy constants used by the source. -/
inductive Strategy where
  | averageVector : Strategy
  | bestScore : Strategy
deriving DecidableEq

/-- The query argument of the single qdrant.query_points call an endpoint
    issues. -/
inductive StoreQuery (V : Type) where
  | plain : V → StoreQuery V
  | discover : V → String → String → StoreQuery V
  | recommend : List (RecEx V) → Option (List (RecEx V)) → Strategy → StoreQuery V
deriving DecidableEq

/-- Python truthiness of an optional string parameter: absent (None) and the
    empty string are falsy. -/
def strTruthy : Option String → Bool
  | none => false
  | some s => !s.isEmpty

namespace Clippy

/-- Mode selection in GET /discover of clippy-backend/app.py.  In each truthy
    branch the id is some nonempty string, so the getD fallback is
    unreachable. -/
def discover_query {V : Type} (query_vector : V)
    (positive_id negative_id : Option String) : StoreQuery V :=
  if strTruthy positive_id && strTruthy negative_id then
    .discover query_vector (positive_id.getD "") (negative_id.getD "")
  else if strTruthy positive_id then
    .recommend [.pid (positive_id.getD "")] none .averageVector
  else if strTruthy negative_id then
    .recommend [.vec query_vector] (some [.pid (negative_id.getD "")]) .bestScore
  else
    .plain query_vector

end Clippy

namespace Backend

/-- Mode selection in GET /discover of backend/app.py: it has no
    negative-only branch — anything that is not both-present or
    positive-only falls through to a plain query. -/
def discover_query {V : Type} (vec : V)
    (positive_id negative_id : Option String) : StoreQuery V :=
  if strTruthy positive_id && strTruthy negative_id then
    .discover vec (positive_id.getD "") (negative_id.getD "")
  else if strTruthy positive_id then
    .recommend [.pid (positive_id.getD "")] none .averageVector
  else
    .plain vec

end Backend

/-- C1 counterexample: backend/app.py's /discover endpoint, with only
    negative_id present, issues a plain nearest-neighbor query — not the
    Recommend query (query embedding as sole positive, given id as negative,
    best-score strategy) that the claim requires for that case. -/
theorem backend_discover_negative_only_is_plain :
    Backend.discover_query (0 : Nat) none (some "n1") = .plain 0 ∧
    (StoreQuery.plain 0 : StoreQuery Nat) ≠
      .recommend [.vec 0] (some [.pid "n1"]) .bestScore := by
  exact ⟨rfl, by decide⟩

/-- C1 amended: mode selection is total and deterministic in both servers.
    clippy-backend/app.py follows the claimed four-way precedence exactly;
    backend/app.py follows it for the both-present, positive-only and
    neither cases, but sends the negative-only case to Plain (it has no
    Recommend-negative branch). -/
theorem discover_mode_selection {V : Type} (v : V) (p n : String)
    (pid nid : Option String) (hp : p ≠ "") (hn : n ≠ "")
    (hpf : strTruthy pid = false) (hnf : strTruthy nid = false) :
    Clippy.discover_query v (some p) (some n) = .discover v p n ∧
    Clippy.discover_query v (some p) nid =
      .recommend [.pid p] none .averageVector ∧
    Clippy.discover_query v pid (some n) =
      .recommend [.vec v] (some [.pid n]) .bestScore ∧
    Clippy.discover_query v pid nid = .plain v ∧
    Backend.discover_query v (some p) (some n) = .discover v p n ∧
    Backend.discover_query v (some p) nid =
      .recommend [.pid p] none .averageVector ∧
    Backend.discover_query v pid (some n) = .plain v ∧
    Backend.discover_query v pid nid = .plain v := by
  have hpe : p.isEmpty = false := by
    cases h : p.isEmpty with
    | false => rfl
    | true => exact absurd ((String.isEmpty_iff p).mp h) hp
  have hne : n.isEmpty = false := by
    cases h : n.isEmpty with
    | false => rfl
    | true => exact absurd ((String.isEmpty_iff n).mp h) hn
  have hp' : strTruthy (some p) = true := by simp [strTruthy, hpe]
  have hn' : strTruthy (some n) = true := by simp [strTruthy, hne]
  refine ⟨?_, ?_, ?_, ?_, ?_, ?_, ?_, ?_⟩ <;>
    simp [Clippy.discover_query, Backend.discover_query, hp', hn', hpf, hnf]

/-- Witness for C1 at concrete inputs. -/
theorem discover_mode_selection_witness :
    Clippy.discover_query (0 : Nat) none (some "n1") =
      .recommend [.vec 0] (some [.pid "n1"]) .bestScore ∧
    Backend.discover_query (0 : Nat) none none = .plain 0 := by
  have h := discover_mode_selection (0 : Nat) "p1" "n1" none none
    (by decide) (by decide) (by decide) (by decide)
  exact ⟨h.2.2.1, h.2.2.2.2.2.2.2⟩

/-!
Result shaping, from point_to_dict in backend/models.py; _point_to_dict in
clippy-backend/app.py is the same function, so one definition serves both.
-/

/-- JSON-ish payload values.  The score is a float in the source and is
    passed through unmodified, so it is represented as an arbitrary JVal. -/
inductive JVal where
  | str : String → JVal
  | num : Int → JVal
  | bool : Bool → JVal
  | arr : List JVal → JVal

/-- A Qdrant point id: unsigned integer or UUID string. -/
inductive PointId where
  | num : Nat → PointId
  | uuid : String → PointId
deriving DecidableEq

/-- Python str() of a point id. -/
def PointId.toStr : PointId → String
  | .num n => toString n
  | .uuid s => s

/-- A Qdrant ScoredPoint as seen by the shaping function; payload is None or
    a dict, modelled as an association list. -/
structure ScoredPoint where
  id : PointId
  score : JVal
  payload : Option (List (String × JVal))

/-- Python dict.get(key, default) on an association list. -/
def pyGet (d : List (String × JVal)) (k : String) (dflt : JVal) : JVal :=
  match d.lookup k with
  | some v => v
  | none => dflt

/-- point_to_dict: convert a ScoredPoint to a flat record (the returned
    Python dict is modelled as an association list in literal key order). -/
def point_to_dict (point : ScoredPoint) : List (String × JVal) :=
  let payload := point.payload.getD []
  [("id", .str point.id.toStr),
   ("score", point.score),
   ("content", pyGet payload "content" (.str "")),
   ("contentType", pyGet payload "contentType" (.str "")),
   ("appName", pyGet payload "appName" (.str "")),
   ("title", pyGet payload "title" (.str "")),
   ("tags", pyGet payload "tags" (.arr []))]

/-- C4: point_to_dict returns a record with exactly the keys id, score,
    content, contentType, appName, title, tags; the id value is the
    stringified point id; and any other key — in particular entities,
    timestamp and isFavorite, which ingestion stores in the payload — is
    absent from the output. -/
theorem point_to_dict_shape (point : ScoredPoint) (k : String)
    (hk : k ∉ ["id", "score", "content", "contentType", "appName", "title", "tags"]) :
    (point_to_dict point).map Prod.fst =
      ["id", "score", "content", "contentType", "appName", "title", "tags"] ∧
    (point_to_dict point).lookup k = none ∧
    (point_to_dict point).lookup "id" = some (.str point.id.toStr) := by
  refine ⟨rfl, ?_, rfl⟩
  rw [List.lookup_eq_none_iff]
  intro p hp
  simp only [point_to_dict, List.mem_cons, List.not_mem_nil, or_false] at hp
  simp only [List.mem_cons, List.not_mem_nil, List.mem_singleton, not_or] at hk
  rcases hp with rfl | rfl | rfl | rfl | rfl | rfl | rfl <;> simp_all

/-- Witness for C4 at a concrete point whose payload carries extra fields. -/
theorem point_to_dict_shape_witness :
    (point_to_dict
      { id := .uuid "p1", score := .num 1,
        payload := some [("content", .str "hello"), ("entities", .arr []),
                         ("timestamp", .num 7), ("isFavorite", .bool true)] }).lookup
      "entities" = none ∧
    (point_to_dict
      { id := .uuid "p1", score := .num 1,
        payload := some [("content", .str "hello"), ("entities", .arr []),
                         ("timestamp", .num 7), ("isFavorite", .bool true)] }).map
      Prod.fst = ["id", "score", "content", "contentType", "appName", "title", "tags"] := by
  have h := point_to_dict_shape
    { id := .uuid "p1", score := .num 1,
      payload := some [("content", .str "hello"), ("entities", .arr []),
                       ("timestamp", .num 7), ("isFavorite", .bool true)] }
    "entities" (by decide)
  exact ⟨h.2.1, h.1⟩

/-!
RAG answering, from GET /ask in both servers.  Retrieved points enter as
their payloads (None or a string-valued dict); `complete` is the
get_llm_response collaborator (`.error e` = the call raised an exception whose
text is `e`); timing values are measured by the external clock and passed
through.
-/

/-- Python dict.get with a string default, on a string-valued payload. -/
def pyGetS (d : List (String × String)) (k dflt : String) : String :=
  match d.lookup k with
  | some v => v
  | none => dflt

namespace Clippy

/-- System prompt of GET /ask in clippy-backend/app.py. -/
def askSystemPrompt : String :=
  "You are a clipboard search assistant. Rules:\n" ++
  "- Answer ONLY using the context provided below.\n" ++
  "- Reply with JUST the answer in one short sentence. No commentary, no corrections, no extra explanation.\n" ++
  "- Refer to the user as \x27you/your\x27 (second person). Never use \x27I/my\x27.\n" ++
  "- If asked for a specific value (name, number, URL), return ONLY that value.\n" ++
  "- Do NOT mention yourself or your role."

/-- The display snippet built for one retrieved point: bracketed appName and
    title parts when nonempty, then the content truncated to 500
    characters. -/
def snippet (payload : Option (List (String × String))) : String :=
  let pl := payload.getD []
  let content := pyGetS pl "content" ""
  let app_name := pyGetS pl "appName" ""
  let title := pyGetS pl "title" ""
  let tag :=
    if title.isEmpty = false then "[" ++ app_name ++ "] " ++ title ++ ": "
    else if app_name.isEmpty = false then "[" ++ app_name ++ "] "
    else ""
  tag ++ pyTake 500 content

/-- The context_docs list of /ask. -/
def contextDocs (points : List (Option (List (String × String)))) : List String :=
  points.map snippet

/-- The joined context of /ask. -/
def askContext (points : List (Option (List (String × String)))) : String :=
  String.intercalate "\n---\n" (contextDocs points)

/-- The user prompt passed to get_llm_response by /ask. -/
def askUserPrompt (q : String)
    (points : List (Option (List (String × String)))) : String :=
  "Context:\n" ++ askContext points ++ "\n\nQuestion: " ++ q

/-- The /ask JSON response. -/
structure AskResponse where
  question : String
  answer : String
  sources : Nat
  retrieval_ms : Int
  llm_ms : Int
  model : String

/-- GET /ask of clippy-backend/app.py after retrieval: assemble context, call
    the completion with max_tokens 80, fix perspective on success, catch an
    exception into an inline answer, and return the response. -/
def ask (q : String) (points : List (Option (List (String × String))))
    (complete : String → String → Nat → Except String String)
    (retrievalMs llmMs : Int) (modelName : String) : AskResponse :=
  let answer :=
    match complete askSystemPrompt (askUserPrompt q points) 80 with
    | .ok a => _fix_perspective a
    | .error e => "LLM error: " ++ e
  { question := q, answer := answer, sources := (contextDocs points).length,
    retrieval_ms := retrievalMs, llm_ms := llmMs, model := modelName }

end Clippy

namespace Backend

/-- System prompt of GET /ask in backend/app.py. -/
def askSystemPrompt : String :=
  "You are a helpful assistant. Use \x27you/your\x27 instead of \x27I/my\x27. Answer using ONLY the context."

/-- The display snippet in backend/app.py: bracketed appName when truthy
    (for string payload values, nonempty), then content truncated to 500
    characters. -/
def snippet (payload : Option (List (String × String))) : String :=
  let pl := payload.getD []
  let app_name := pyGetS pl "appName" ""
  let tag := if app_name.isEmpty = false then "[" ++ app_name ++ "] " else ""
  tag ++ pyTake 500 (pyGetS pl "content" "")

def contextDocs (points : List (Option (List (String × String)))) : List String :=
  points.map snippet

def askContext (points : List (Option (List (String × String)))) : String :=
  String.intercalate "\n---\n" (contextDocs points)

def askUserPrompt (q : String)
    (points : List (Option (List (String × String)))) : String :=
  "Context:\n" ++ askContext points ++ "\n\nQuestion: " ++ q

structure AskResponse where
  question : String
  answer : String
  sources : Nat
  time_ms : Int
  model : String

/-- GET /ask of backend/app.py after retrieval (RAG_MAX_TOKENS = 80). -/
def ask (q : String) (points : List (Option (List (String × String))))
    (complete : String → String → Nat → Except String String)
    (timeMs : Int) (modelName : String) : AskResponse :=
  let answer :=
    match complete askSystemPrompt (askUserPrompt q points) 80 with
    | .ok a => a
    | .error e => "LLM error: " ++ e
  { question := q, answer := answer, sources := (contextDocs points).length,
    time_ms := timeMs, model := modelName }

end Backend

/-- C5: in GET /ask of both servers, if the completion call raises an
    exception, it is caught and the response still carries a populated
    answer of the form "LLM error: " ++ detail, together with the source
    count (one per retrieved point) and the timing fields; the exception
    never propagates (ask is total and returns a response). -/
theorem ask_completion_error_caught (q : String)
    (points : List (Option (List (String × String))))
    (complete : String → String → Nat → Except String String)
    (rMs lMs tMs : Int) (mn : String) (e e' : String)
    (hc : complete Clippy.askSystemPrompt (Clippy.askUserPrompt q points) 80
            = .error e)
    (hb : complete Backend.askSystemPrompt (Backend.askUserPrompt q points) 80
            = .error e') :
    (Clippy.ask q points complete rMs lMs mn).answer = "LLM error: " ++ e ∧
    (Clippy.ask q points complete rMs lMs mn).sources = points.length ∧
    (Clippy.ask q points complete rMs lMs mn).retrieval_ms = rMs ∧
    (Clippy.ask q points complete rMs lMs mn).llm_ms = lMs ∧
    (Backend.ask q points complete tMs mn).answer = "LLM error: " ++ e' ∧
    (Backend.ask q points complete tMs mn).sources = points.length ∧
    (Backend.ask q points complete tMs mn).time_ms = tMs := by
  refine ⟨?_, ?_, rfl, rfl, ?_, ?_, rfl⟩ <;>
    simp [Clippy.ask, Backend.ask, Clippy.contextDocs, Backend.contextDocs, hc, hb]

/-- Witness for C5 with a failing completion collaborator. -/
theorem ask_completion_error_caught_witness :
    (Clippy.ask "q" [] (fun _ _ _ => .error "boom") 1 2 "m").answer =
      "LLM error: boom" ∧
    (Backend.ask "q" [] (fun _ _ _ => .error "boom") 3 "m").sources = 0 := by
  have h := ask_completion_error_caught "q" [] (fun _ _ _ => .error "boom")
    1 2 3 "m" "boom" "boom" rfl rfl
  exact ⟨h.1, h.2.2.2.2.2.1⟩

/-- C6: in /ask context assembly of both servers, every snippet is a tag
    followed by the first at-most-500 characters of the stored content (a
    true initial segment of it, never longer than 500), the context is the
    snippets joined with the fixed separator "\n---\n", and the returned
    sources field equals the number of snippets assembled. -/
theorem ask_context_truncation (q : String)
    (points : List (Option (List (String × String))))
    (complete : String → String → Nat → Except String String)
    (rMs lMs tMs : Int) (mn : String) :
    (∀ p ∈ points, ∃ tag rest,
      Clippy.snippet p = tag ++ pyTake 500 (pyGetS (p.getD []) "content" "") ∧
      (pyTake 500 (pyGetS (p.getD []) "content" "")).length ≤ 500 ∧
      pyGetS (p.getD []) "content" ""
        = pyTake 500 (pyGetS (p.getD []) "content" "") ++ rest) ∧
    (∀ p ∈ points, ∃ tag rest,
      Backend.snippet p = tag ++ pyTake 500 (pyGetS (p.getD []) "content" "") ∧
      pyGetS (p.getD []) "content" ""
        = pyTake 500 (pyGetS (p.getD []) "content" "") ++ rest) ∧
    Clippy.askContext points
      = String.intercalate "\n---\n" (points.map Clippy.snippet) ∧
    Backend.askContext points
      = String.intercalate "\n---\n" (points.map Backend.snippet) ∧
    (Clippy.ask q points complete rMs lMs mn).sources
      = (points.map Clippy.snippet).length ∧
    (Backend.ask q points complete tMs mn).sources
      = (points.map Backend.snippet).length := by
  have hsplit : ∀ (s : String), s = pyTake 500 s ++ String.mk (s.data.drop 500) := by
    intro s
    show s = String.mk (s.data.take 500) ++ String.mk (s.data.drop 500)
    cases s with
    | mk l =>
      show String.mk l = String.mk (l.take 500 ++ l.drop 500)
      rw [List.take_append_drop]
  have hlen : ∀ (s : String), (pyTake 500 s).length ≤ 500 := by
    intro s
    show (s.data.take 500).length ≤ 500
    rw [List.length_take]
    exact Nat.min_le_left _ _
  refine ⟨?_, ?_, rfl, rfl, rfl, rfl⟩
  · intro p _
    exact ⟨_, String.mk ((pyGetS (p.getD []) "content" "").data.drop 500),
      rfl, hlen _, hsplit _⟩
  · intro p _
    exact ⟨_, String.mk ((pyGetS (p.getD []) "content" "").data.drop 500),
      rfl, hsplit _⟩

/-- Witness for C6 at a concrete over-length content item. -/
theorem ask_context_truncation_witness :
    (Clippy.ask "q" [some [("content", "hi")], none]
      (fun _ _ _ => .ok "a") 1 2 "m").sources
      = ([some [("content", "hi")], none].map Clippy.snippet).length ∧
    Clippy.askContext [some [("content", "hi")], none]
      = String.intercalate "\n---\n"
          ([some [("content", "hi")], none].map Clippy.snippet) := by
  have h := ask_context_truncation "q" [some [("content", "hi")], none]
    (fun _ _ _ => .ok "a") 1 2 3 "m"
  exact ⟨h.2.2.2.2.1, h.2.2.1⟩

/-!
Completion providers and the chat-completions shim.  backend/ai.py and
clippy-backend/shared/llm.py differ in the no-model message and in the
repetition guard, so each server gets its own model.  `call`/`post` stand for
the llama-cpp chat-completion call and the remote HTTP round-trip (post,
raise_for_status, JSON extraction): `.error e` means that step raised an
exception with text `e`.
-/

/-- First index at which `nd` occurs as a contiguous run inside `hay`
    (Python str.index / the `in` operator). -/
def pyFindSub (hay nd : List Char) : Option Nat :=
  (List.range (hay.length + 1)).find? (fun i => (hay.drop i).take nd.length == nd)

/-- One chat message of the OpenAI-style request body. -/
structure ChatMessage where
  role : String
  content : String

/-- The request fields the shim logic reads. -/
structure ChatCompletionRequest where
  messages : List ChatMessage
  max_tokens : Nat := 2048
  response_format_json : Bool := false

/-- An HTTP response of the shim: status code plus either the assistant
    message content of the 200 body or the error body of the 500 one. -/
structure ChatResponse where
  status : Nat
  content : Option String
  error : Option String

inductive LlmMode where
  | localMode
  | remoteMode
deriving DecidableEq

namespace Backend

/-- The repetition guard in _local_llm_completion (backend/ai.py): truncate
    at the first occurrence of the first marker present, strip, and stop. -/
def guardMarkers (text : String) : String :=
  match pyFindSub text.data "[/INST]".data with
  | some i => pyStripS (String.mk (text.data.take i))
  | none =>
    match pyFindSub text.data "\n\n\n".data with
    | some i => pyStripS (String.mk (text.data.take i))
    | none => text

/-- _local_llm_completion from backend/ai.py: placeholder text when no model
    is loaded; otherwise strip the model output and apply the repetition
    guard.  A raised llama exception propagates. -/
def _local_llm_completion
    (model : Option (String → String → Nat → Except String String))
    (system_prompt user_prompt : String) (max_tokens : Nat) :
    Except String String :=
  match model with
  | none => .ok "No local LLM loaded."
  | some call =>
    match call system_prompt user_prompt max_tokens with
    | .error e => .error e
    | .ok raw => .ok (guardMarkers (pyStripS raw))

/-- _remote_llm_completion from backend/ai.py: a missing LLM_API_URL and any
    HTTP failure are caught and returned as text, never raised. -/
def _remote_llm_completion (api_url : Option String)
    (post : String → String → Nat → Except String String)
    (system_prompt user_prompt : String) (max_tokens : Nat) : String :=
  if strTruthy api_url = false then "LLM_API_URL not set."
  else
    match post system_prompt user_prompt max_tokens with
    | .ok content => content
    | .error e => "Remote LLM error: " ++ e

/-- get_llm_response from backend/ai.py. -/
def get_llm_response (mode : LlmMode)
    (model : Option (String → String → Nat → Except String String))
    (api_url : Option String)
    (post : String → String → Nat → Except String String)
    (system_prompt user_prompt : String) (max_tokens : Nat) :
    Except String String :=
  match mode with
  | .remoteMode =>
    .ok (_remote_llm_completion api_url post system_prompt user_prompt max_tokens)
  | .localMode =>
    _local_llm_completion model system_prompt user_prompt max_tokens

/-- System prompt assembled by POST /v1/chat/completions (backend/app.py):
    newline-joined system contents, stripped, plus the JSON reinforcement. -/
def chatSysPrompt (req : ChatCompletionRequest) : String :=
  let sys := pyStripS (String.intercalate "\n"
    ((req.messages.filter (fun m => m.role == "system")).map (fun m => m.content)))
  if req.response_format_json then
    sys ++ "\n\nIMPORTANT: Respond with valid JSON only."
  else sys

/-- User prompt assembled by POST /v1/chat/completions (backend/app.py). -/
def chatUserPrompt (req : ChatCompletionRequest) : String :=
  pyStripS (String.intercalate "\n"
    ((req.messages.filter (fun m => m.role == "user" || m.role == "assistant")).map
      (fun m => m.content)))

/-- POST /v1/chat/completions from backend/app.py: a raised completion
    exception becomes JSONResponse(status_code=500); otherwise a 200 body
    whose single choice carries the answer. -/
def chat_completions (mode : LlmMode)
    (model : Option (String → String → Nat → Except String String))
    (api_url : Option String)
    (post : String → String → Nat → Except String String)
    (req : ChatCompletionRequest) : ChatResponse :=
  match get_llm_response mode model api_url post
      (chatSysPrompt req) (chatUserPrompt req) req.max_tokens with
  | .error e => { status := 500, content := none, error := some e }
  | .ok answer => { status := 200, content := some answer, error := none }

end Backend

namespace Clippy

/-- _local_completion from clippy-backend/shared/llm.py: placeholder text
    when no model is loaded; otherwise the model output is returned as is. -/
def _local_completion
    (model : Option (String → String → Nat → Except String String))
    (system_prompt user_prompt : String) (max_tokens : Nat) :
    Except String String :=
  match model with
  | none => .ok "No local LLM loaded. Set LLM_MODE=remote or place GGUF files in models/."
  | some call => call system_prompt user_prompt max_tokens

/-- _remote_completion from clippy-backend/shared/llm.py. -/
def _remote_completion (api_url : Option String)
    (post : String → String → Nat → Except String String)
    (system_prompt user_prompt : String) (max_tokens : Nat) : String :=
  if strTruthy api_url = false then
    "LLM_API_URL not set. Configure a remote LLM endpoint."
  else
    match post system_prompt user_prompt max_tokens with
    | .ok content => content
    | .error e => "Remote LLM error: " ++ e

/-- get_llm_response from clippy-backend/shared/llm.py. -/
def get_llm_response (mode : LlmMode)
    (model : Option (String → String → Nat → Except String String))
    (api_url : Option String)
    (post : String → String → Nat → Except String String)
    (system_prompt user_prompt : String) (max_tokens : Nat) :
    Except String String :=
  match mode with
  | .remoteMode =>
    .ok (_remote_completion api_url post system_prompt user_prompt max_tokens)
  | .localMode =>
    _local_completion model system_prompt user_prompt max_tokens

/-- System prompt assembled by POST /v1/chat/completions
    (clippy-backend/app.py): each system content plus a newline, stripped,
    plus the JSON reinforcement. -/
def chatSysPrompt (req : ChatCompletionRequest) : String :=
  let sys := pyStripS (String.join
    ((req.messages.filter (fun m => m.role == "system")).map
      (fun m => m.content ++ "\n")))
  if req.response_format_json then
    sys ++ "\n\nIMPORTANT: You MUST respond with valid JSON only. No markdown, no explanation."
  else sys

/-- User prompt assembled by POST /v1/chat/completions
    (clippy-backend/app.py); assistant turns are appended to it too. -/
def chatUserPrompt (req : ChatCompletionRequest) : String :=
  pyStripS (String.join
    ((req.messages.filter (fun m => m.role == "user" || m.role == "assistant")).map
      (fun m => m.content ++ "\n")))

/-- POST /v1/chat/completions from clippy-backend/app.py. -/
def chat_completions (mode : LlmMode)
    (model : Option (String → String → Nat → Except String String))
    (api_url : Option String)
    (post : String → String → Nat → Except String String)
    (req : ChatCompletionRequest) : ChatResponse :=
  match get_llm_response mode model api_url post
      (chatSysPrompt req) (chatUserPrompt req) req.max_tokens with
  | .error e => { status := 500, content := none, error := some e }
  | .ok answer => { status := 200, content := some answer, error := none }

end Clippy

/-- C7 counterexample: with the remote completion backend, a failing HTTP
    round-trip is caught inside the provider and returned as ordinary text,
    so the chat-completions shim renders the completion failure as a 200
    response whose answer content is an error string — not a 5xx. -/
theorem chat_completions_remote_failure_is_200 :
    (Backend.chat_completions .remoteMode none (some "http://api.example")
        (fun _ _ _ => .error "connection refused") { messages := [] }).status = 200 ∧
    (Backend.chat_completions .remoteMode none (some "http://api.example")
        (fun _ _ _ => .error "connection refused") { messages := [] }).content
      = some "Remote LLM error: connection refused" ∧
    (Clippy.chat_completions .remoteMode none (some "http://api.example")
        (fun _ _ _ => .error "connection refused") { messages := [] }).status = 200 ∧
    (Clippy.chat_completions .remoteMode none (some "http://api.example")
        (fun _ _ _ => .error "connection refused") { messages := [] }).content
      = some "Remote LLM error: connection refused" :=
  ⟨rfl, rfl, rfl, rfl⟩

/-- C7 amended: the shim returns 500 exactly when the completion call raises
    an exception, which only the local backend lets happen; in remote mode
    the provider catches its own failures and the shim returns 200 with the
    error string "Remote LLM error: ..." as the answer content. -/
theorem chat_completions_failure_status
    (model : Option (String → String → Nat → Except String String))
    (call post : String → String → Nat → Except String String)
    (api_url : Option String) (req : ChatCompletionRequest) (e eb ec : String)
    (hcallB : call (Backend.chatSysPrompt req) (Backend.chatUserPrompt req)
        req.max_tokens = .error e)
    (hcallC : call (Clippy.chatSysPrompt req) (Clippy.chatUserPrompt req)
        req.max_tokens = .error e)
    (hurl : strTruthy api_url = true)
    (hpostB : post (Backend.chatSysPrompt req) (Backend.chatUserPrompt req)
        req.max_tokens = .error eb)
    (hpostC : post (Clippy.chatSysPrompt req) (Clippy.chatUserPrompt req)
        req.max_tokens = .error ec) :
    (Backend.chat_completions .localMode (some call) api_url post req).status = 500 ∧
    (Backend.chat_completions .localMode (some call) api_url post req).error = some e ∧
    (Clippy.chat_completions .localMode (some call) api_url post req).status = 500 ∧
    (Clippy.chat_completions .localMode (some call) api_url post req).error = some e ∧
    (Backend.chat_completions .remoteMode model api_url post req).status = 200 ∧
    (Backend.chat_completions .remoteMode model api_url post req).content
      = some ("Remote LLM error: " ++ eb) ∧
    (Clippy.chat_completions .remoteMode model api_url post req).status = 200 ∧
    (Clippy.chat_completions .remoteMode model api_url post req).content
      = some ("Remote LLM error: " ++ ec) := by
  refine ⟨?_, ?_, ?_, ?_, ?_, ?_, ?_, ?_⟩ <;>
    simp [Backend.chat_completions, Clippy.chat_completions,
      Backend.get_llm_response, Clippy.get_llm_response,
      Backend._local_llm_completion, Clippy._local_completion,
      Backend._remote_llm_completion, Clippy._remote_completion,
      hcallB, hcallC, hurl, hpostB, hpostC]

/-- Witness for C7's amended statement at concrete collaborators. -/
theorem chat_completions_failure_status_witness :
    (Backend.chat_completions .localMode (some (fun _ _ _ => .error "boom"))
        (some "u") (fun _ _ _ => .error "down") { messages := [] }).status = 500 ∧
    (Clippy.chat_completions .remoteMode none (some "u")
        (fun _ _ _ => .error "down") { messages := [] }).content
      = some ("Remote LLM error: " ++ "down") := by
  have h := chat_completions_failure_status none (fun _ _ _ => .error "boom")
    (fun _ _ _ => .error "down") (some "u") { messages := [] }
    "boom" "down" "down" rfl rfl rfl rfl rfl
  exact ⟨h.1, h.2.2.2.2.2.2.2⟩

namespace Backend

/-- do_search from backend/cognee_worker.py.  The cognee.search outcome
    enters as `results` (None or the raw match list); Python `(results or
    [])` maps None — and the already-empty list — to [].  The worker returns
    the str() conversions of the first at most 20 matches. -/
def do_search {α : Type} (strOf : α → String) (results : Option (List α)) :
    List String :=
  ((match results with
    | none => []
    | some l => l).take 20).map strOf

end Backend

/-- C9: for every underlying search outcome, the worker's search action
    returns a list of at most 20 elements — the string conversions of the
    first at most 20 raw matches, in order — and returns [] when the
    underlying search produced None or an empty result. -/
theorem do_search_bounds {α : Type} (strOf : α → String)
    (results : Option (List α)) (l : List α) :
    (Backend.do_search strOf results).length ≤ 20 ∧
    Backend.do_search strOf none = [] ∧
    Backend.do_search (α := α) strOf (some []) = [] ∧
    Backend.do_search strOf (some l) = (l.take 20).map strOf ∧
    ∀ x ∈ Backend.do_search strOf results,
      ∃ r, r ∈ results.getD [] ∧ x = strOf r := by
  refine ⟨?_, rfl, rfl, rfl, ?_⟩
  · cases results with
    | none => simp [Backend.do_search]
    | some l' =>
      simp only [Backend.do_search, List.length_map, List.length_take]
      exact Nat.min_le_left _ _
  · intro x hx
    cases results with
    | none => simp [Backend.do_search] at hx
    | some l' =>
      simp only [Backend.do_search, List.mem_map] at hx
      obtain ⟨r, hr, rfl⟩ := hx
      exact ⟨r, List.take_subset 20 l' hr, rfl⟩

/-- Witness for C9 (its only hypotheses are the inner membership ones). -/
theorem do_search_bounds_witness :
    Backend.do_search (fun n : Nat => toString n) none = [] :=
  (do_search_bounds (fun n : Nat => toString n) none []).2.1

/-!
Item ingestion, from POST /add-item; backend/app.py and
clippy-backend/app.py build the same payload.
-/

/-- A vector-store point as built by /add-item. -/
structure PointStructM (V : Type) where
  id : String
  vector : V
  payload : List (String × JVal)

/-- AddItemRequest fields (backend/models.py and clippy-backend/app.py
    agree, defaults included). -/
structure AddItemRequest where
  content : String
  app_name : Option String := none
  content_type : String := "text"
  tags : List String := []
  title : Option String := none
  is_favorite : Bool := false

/-- Python `x or default` on an optional string (None and "" are falsy). -/
def pyOrStr (o : Option String) (dflt : String) : String :=
  match o with
  | none => dflt
  | some s => if s.isEmpty then dflt else s

/-- The payload dict built by POST /add-item, in literal key order;
    `tstamp` is the time.time() reading. -/
def addItemPayload (pats : List (String × (String → List String)))
    (req : AddItemRequest) (tstamp : JVal) : List (String × JVal) :=
  [("content", .str req.content),
   ("appName", .str (pyOrStr req.app_name "Unknown")),
   ("contentType", .str req.content_type),
   ("tags", .arr (req.tags.map JVal.str)),
   ("title", .str (pyOrStr req.title "")),
   ("timestamp", tstamp),
   ("isFavorite", .bool req.is_favorite),
   ("entities", .arr ((extract_entities pats req.content).map
      (fun ent => .str ent.2)))]

/-- POST /add-item, the same control flow in both servers: embed; on an
    embedding exception return the error body with the store untouched;
    otherwise draw a point id, upsert the new point and return the ok body.
    `embed` is the get_embedding outcome, `genId` the uuid4 drawn,
    `tstamp`/`timeMs` the clock readings; the upsert of a fresh uuid never
    collides, so it appends. -/
def add_item {V : Type} (pats : List (String × (String → List String)))
    (embed : Except String V) (genId : String) (tstamp timeMs : JVal)
    (store : List (PointStructM V)) (req : AddItemRequest) :
    List (String × JVal) × List (PointStructM V) :=
  match embed with
  | .error e => ([("error", .str ("Embedding failed: " ++ e))], store)
  | .ok vec =>
    let point_id := genId
    ([("status", .str "ok"), ("point_id", .str point_id), ("time_ms", timeMs)],
     store ++ [{ id := point_id, vector := vec,
                 payload := addItemPayload pats req tstamp }])

/-- C10: if embedding fails during POST /add-item, the endpoint returns an
    error-shaped response whose error field is "Embedding failed: ..." and
    performs no upsert — the store is unchanged and the response exposes no
    point id; the upsert runs only after the embedding has succeeded,
    appending exactly the new point, whose generated id the ok response
    carries. -/
theorem add_item_embed_failure {V : Type}
    (pats : List (String × (String → List String))) (genId : String)
    (tstamp timeMs : JVal) (store : List (PointStructM V))
    (req : AddItemRequest) (e : String) (v : V) :
    (add_item pats (.error e) genId tstamp timeMs store req).1
      = [("error", .str ("Embedding failed: " ++ e))] ∧
    (add_item pats (.error e) genId tstamp timeMs store req).2 = store ∧
    ((add_item pats (.error e) genId tstamp timeMs store req).1).lookup
      "point_id" = none ∧
    (add_item pats (.ok v) genId tstamp timeMs store req).2
      = store ++ [{ id := genId, vector := v,
                    payload := addItemPayload pats req tstamp }] ∧
    ((add_item pats (.ok v) genId tstamp timeMs store req).1).lookup
      "point_id" = some (.str genId) :=
  ⟨rfl, rfl, rfl, rfl, rfl⟩
